import Mathlib

/-!
Shallow embedding of the hamkee-fastapi service scaffold:
the outbound HTTP client with bounded retries (`app/services/http.py`),
the environment-driven settings loader (`app/services/settings.py`),
and the application bootstrap (`app/main.py`).
-/

set_option maxHeartbeats 1000000

namespace Hamkee

/-! ## HTTP client (`app/services/http.py`) -/

/-- An httpx response, abstracted to an opaque identifier. -/
abbrev Response := Nat

/-- A Python exception as raised by an attempt: its class name and the text
produced by `str(e)`. -/
structure Exc where
  excType : String
  msg : String
  deriving DecidableEq, Repr

/-- `HTTPClientConfig.__init__`: keeps `default_timeout`, `max_retries`,
`verify_ssl` and the retryable exception classes (the default tuple is
`ConnectTimeout`, `RemoteProtocolError`, `ReadTimeout`).  The constructor
places no constraint on `max_retries`. -/
structure HTTPClientConfig where
  default_timeout : Int := 5
  max_retries : Nat := 5
  verify_ssl : Bool := true
  retryable_exceptions : List String :=
    ["ConnectTimeout", "RemoteProtocolError", "ReadTimeout"]
  deriving DecidableEq, Repr

/-- The outcome of one underlying `request_func(url, **kwargs)` call:
either a response or a raised exception. -/
inductive AttemptOutcome where
  | success (resp : Response)
  | failure (e : Exc)
  deriving DecidableEq, Repr

/-- The `result` library's `Result[Response, str]`. -/
inductive RResult where
  | ok (resp : Response)
  | err (msg : String)
  deriving DecidableEq, Repr

/-- What a call to `_send_request` does for the caller: return a `Result`,
or let an exception propagate out of the function. -/
inductive SendOutcome where
  | returned (r : RResult)
  | raised (e : Exc)
  deriving DecidableEq, Repr

/-- The f-string built at exhaustion:
`f"Failed to {method.upper()} {url} after {max_retries} attempts: {last_error}"`. -/
def errorMessage (method url : String) (maxRetries : Nat) (lastError : String) : String :=
  "Failed to " ++ method.toUpper ++ " " ++ url ++ " after " ++
    toString maxRetries ++ " attempts: " ++ lastError

/-- `except self.config.retryable_exceptions` matches exactly when the raised
exception's class is one of the configured retryable classes. -/
def isRetryable (cfg : HTTPClientConfig) (e : Exc) : Prop :=
  e.excType ∈ cfg.retryable_exceptions

instance (cfg : HTTPClientConfig) (e : Exc) : Decidable (isRetryable cfg e) := by
  unfold isRetryable; infer_instance

/-- The `for attempt in range(self.config.max_retries)` loop of
`_send_request`.  `remaining` counts the loop iterations still to run,
`attempt` is the current 0-based loop index, `lastError` is the `last_error`
local.  The oracle gives each attempt's underlying outcome.  Returns the
call's outcome together with the number of underlying request calls made. -/
def retryLoop (cfg : HTTPClientConfig) (oracle : Nat → AttemptOutcome)
    (method url : String) :
    Nat → Nat → String → SendOutcome × Nat
  | 0, attempt, lastError =>
    (.returned (.err (errorMessage method url cfg.max_retries lastError)), attempt)
  | r + 1, attempt, lastError =>
    match oracle attempt with
    | .success resp => (.returned (.ok resp), attempt + 1)
    | .failure e =>
      if e.excType ∈ cfg.retryable_exceptions then
        retryLoop cfg oracle method url r (attempt + 1)
          (if attempt = cfg.max_retries - 1 then e.msg else lastError)
      else
        (.raised e, attempt + 1)

/-- `HTTPClient._send_request`: run the retry loop from attempt 0 with
`last_error = ""`, for at most `max_retries` iterations. -/
def send_request (cfg : HTTPClientConfig) (oracle : Nat → AttemptOutcome)
    (method url : String) : SendOutcome × Nat :=
  retryLoop cfg oracle method url cfg.max_retries 0 ""

/-- If every remaining attempt raises a retryable exception, the loop runs to
exhaustion: it makes all `max_retries` calls and returns `Err` built from the
final attempt's error text. -/
theorem retryLoop_allFail (cfg : HTTPClientConfig) (oracle : Nat → AttemptOutcome)
    (method url : String) :
    ∀ remaining attempt lastError,
      attempt + remaining = cfg.max_retries →
      0 < remaining →
      (∀ i, attempt ≤ i → i < cfg.max_retries →
        ∃ e, oracle i = .failure e ∧ e.excType ∈ cfg.retryable_exceptions) →
      ∃ e, oracle (cfg.max_retries - 1) = .failure e ∧
        retryLoop cfg oracle method url remaining attempt lastError =
          (.returned (.err (errorMessage method url cfg.max_retries e.msg)),
            cfg.max_retries) := by
  intro remaining
  induction remaining with
  | zero => intro attempt lastError _ hpos _; omega
  | succ r ih =>
    intro attempt lastError hsum _ hall
    have hattempt : attempt < cfg.max_retries := by omega
    obtain ⟨e, he, hret⟩ := hall attempt le_rfl hattempt
    cases r with
    | zero =>
      have hlastidx : attempt = cfg.max_retries - 1 := by omega
      subst hlastidx
      refine ⟨e, he, ?_⟩
      have hone : cfg.max_retries - 1 + 1 = cfg.max_retries := by omega
      simp [retryLoop, he, hret, hone]
    | succ r' =>
      obtain ⟨e', he', hrec⟩ := ih (attempt + 1)
        (if attempt = cfg.max_retries - 1 then e.msg else lastError)
        (by omega) (by omega) (fun i h1 h2 => hall i (by omega) h2)
      refine ⟨e', he', ?_⟩
      simpa [retryLoop, he, hret] using hrec

/-- If the attempts before index `j` all raise retryable exceptions and
attempt `j` succeeds, the loop short-circuits: it makes `j + 1` calls and
returns `Ok` of attempt `j`'s response. -/
theorem retryLoop_success (cfg : HTTPClientConfig) (oracle : Nat → AttemptOutcome)
    (method url : String) (j : Nat) (resp : Response)
    (hsucc : oracle j = .success resp)
    (hfail : ∀ i, i < j →
      ∃ e, oracle i = .failure e ∧ e.excType ∈ cfg.retryable_exceptions) :
    ∀ remaining attempt lastError,
      attempt + remaining = cfg.max_retries →
      attempt ≤ j → j < cfg.max_retries →
      retryLoop cfg oracle method url remaining attempt lastError =
        (.returned (.ok resp), j + 1) := by
  intro remaining
  induction remaining with
  | zero => intro attempt lastError hsum hle hj; omega
  | succ r ih =>
    intro attempt lastError hsum hle hj
    rcases Nat.eq_or_lt_of_le hle with heq | hlt
    · subst heq
      simp [retryLoop, hsucc]
    · obtain ⟨e, he, hret⟩ := hfail attempt hlt
      have hrec := ih (attempt + 1)
        (if attempt = cfg.max_retries - 1 then e.msg else lastError)
        (by omega) (by omega) hj
      simpa [retryLoop, he, hret] using hrec

/-- If the attempts before index `j` all raise retryable exceptions and
attempt `j` raises a non-retryable exception, the loop stops at once: it makes
`j + 1` calls and the exception propagates unmodified, with no `Result`. -/
theorem retryLoop_raise (cfg : HTTPClientConfig) (oracle : Nat → AttemptOutcome)
    (method url : String) (j : Nat) (e : Exc)
    (hj : oracle j = .failure e) (hnr : e.excType ∉ cfg.retryable_exceptions)
    (hfail : ∀ i, i < j →
      ∃ e', oracle i = .failure e' ∧ e'.excType ∈ cfg.retryable_exceptions) :
    ∀ remaining attempt lastError,
      attempt + remaining = cfg.max_retries →
      attempt ≤ j → j < cfg.max_retries →
      retryLoop cfg oracle method url remaining attempt lastError =
        (.raised e, j + 1) := by
  intro remaining
  induction remaining with
  | zero => intro attempt lastError hsum hle hjlt; omega
  | succ r ih =>
    intro attempt lastError hsum hle hjlt
    rcases Nat.eq_or_lt_of_le hle with heq | hlt
    · subst heq
      simp [retryLoop, hj, hnr]
    · obtain ⟨e', he', hret⟩ := hfail attempt hlt
      have hrec := ih (attempt + 1)
        (if attempt = cfg.max_retries - 1 then e'.msg else lastError)
        (by omega) (by omega) hjlt
      simpa [retryLoop, he', hret] using hrec

/-! ## HTTP verb methods and pooled-client state (`app/services/http.py`) -/

/-- HTTP headers mapping. -/
abbrev Headers := List (String × String)

/-- Form-encoded body mapping. -/
abbrev FormData := List (String × String)

/-- JSON body mapping. -/
abbrev JsonData := List (String × String)

/-- Python truthiness fallback `t or d` for an optional int: both `None` and
`0` are falsy, so both fall back to `d`. -/
def pyIntOr (t : Option Int) (d : Int) : Int :=
  match t with
  | none => d
  | some v => if v = 0 then d else v

/-- The keyword arguments a verb method passes to `_send_request`. -/
structure RequestArgs where
  method : String
  url : String
  headers : Option Headers
  data : Option FormData
  json : Option JsonData
  timeout : Int
  deriving DecidableEq, Repr

/-- `HTTPClient.get`: builds the `_send_request` arguments, with
`timeout=timeout or self.config.default_timeout`. -/
def HTTPClient.get (cfg : HTTPClientConfig) (url : String)
    (headers : Option Headers) (timeout : Option Int) : RequestArgs :=
  { method := "get", url := url, headers := headers, data := none,
    json := none, timeout := pyIntOr timeout cfg.default_timeout }

/-- `HTTPClient.post`: builds the `_send_request` arguments, with
`timeout=timeout or self.config.default_timeout`. -/
def HTTPClient.post (cfg : HTTPClientConfig) (url : String)
    (data : Option FormData) (json : Option JsonData)
    (headers : Option Headers) (timeout : Option Int) : RequestArgs :=
  { method := "post", url := url, headers := headers, data := data,
    json := json, timeout := pyIntOr timeout cfg.default_timeout }

/-- `HTTPClient.put`: builds the `_send_request` arguments, with
`timeout=timeout or self.config.default_timeout`. -/
def HTTPClient.put (cfg : HTTPClientConfig) (url : String)
    (data : Option FormData) (json : Option JsonData)
    (headers : Option Headers) (timeout : Option Int) : RequestArgs :=
  { method := "put", url := url, headers := headers, data := data,
    json := json, timeout := pyIntOr timeout cfg.default_timeout }

/-- `HTTPClient.delete`: builds the `_send_request` arguments, with
`timeout=timeout or self.config.default_timeout`. -/
def HTTPClient.delete (cfg : HTTPClientConfig) (url : String)
    (headers : Option Headers) (timeout : Option Int) : RequestArgs :=
  { method := "delete", url := url, headers := headers, data := none,
    json := none, timeout := pyIntOr timeout cfg.default_timeout }

/-- The mutable part of an `HTTPClient`: `self._client` (the pooled
`AsyncClient`, tracked by identity) plus an allocator giving each newly
created pool instance a fresh identity. -/
structure HTTPClientState where
  client : Option Nat
  nextPool : Nat
  deriving DecidableEq, Repr

/-- `HTTPClient.get_client`: return the pooled client, creating a fresh one
when `self._client is None`. -/
def HTTPClient.get_client (st : HTTPClientState) : Nat × HTTPClientState :=
  match st.client with
  | some c => (c, st)
  | none => (st.nextPool, ⟨some st.nextPool, st.nextPool + 1⟩)

/-- `HTTPClient.close`: when a pooled client exists, `aclose()` it and set
`self._client = None`; otherwise do nothing. -/
def HTTPClient.close (st : HTTPClientState) : HTTPClientState :=
  match st.client with
  | some _ => ⟨none, st.nextPool⟩
  | none => st

/-- `_send_request` including its first step `client = await self.get_client()`:
returns the retry outcome, the pool client used, and the client state after. -/
def HTTPClient.send_request_pooled (cfg : HTTPClientConfig)
    (st : HTTPClientState) (oracle : Nat → AttemptOutcome)
    (method url : String) : (SendOutcome × Nat) × Nat × HTTPClientState :=
  let c := HTTPClient.get_client st
  (send_request cfg oracle method url, c.1, c.2)

/-! ## Settings (`app/services/settings.py`) -/

/-- The `Environment` enum. -/
inductive Environment where
  | development | testing | staging | production
  deriving DecidableEq, Repr

/-- The contents of the effective environment source (the `.env`-style file /
environment variables pydantic reads): an optional binding per settings key. -/
structure EnvFile where
  DEBUG : Option Bool
  HOST : Option String
  PORT : Option Int
  API_PREFIX : Option String
  CORS_ALLOW_ALL_ORIGINS : Option Bool
  PROJECT_NAME : Option String
  PROJECT_VERSION : Option String
  ENVIRONMENT : Option Environment
  deriving DecidableEq, Repr

/-- An env source binding nothing at all. -/
def EnvFile.empty : EnvFile :=
  ⟨none, none, none, none, none, none, none, none⟩

/-- The settings classes defined in the module.  They differ only in the
class-level defaults they redeclare. -/
inductive SettingsClass where
  | base | development | testing | staging | production
  deriving DecidableEq, Repr

/-- Per-class defaults for the two redeclared fields: `BaseAppSettings` has
`DEBUG = False`, `CORS_ALLOW_ALL_ORIGINS = False`; `DevelopmentSettings`
sets both to `True`; `TestingSettings` sets only `DEBUG = True`;
`StagingSettings` redeclares nothing; `ProductionSettings` sets both to
`False`. -/
def classDefaults : SettingsClass → Bool × Bool
  | .base => (false, false)
  | .development => (true, true)
  | .testing => (true, false)
  | .staging => (false, false)
  | .production => (false, false)

/-- A constructed settings object (the fields of `BaseAppSettings`). -/
structure BaseAppSettings where
  DEBUG : Bool
  HOST : String
  PORT : Int
  API_PREFIX : String
  CORS_ALLOW_ALL_ORIGINS : Bool
  PROJECT_NAME : String
  PROJECT_VERSION : String
  ENVIRONMENT : Environment
  deriving DecidableEq, Repr

/-- Pydantic field resolution for `cls(**base_kwargs)`: an explicitly passed
`ENVIRONMENT` kwarg wins over the env source, which wins over the class
default; every other field is env source over default. -/
def instantiate (cls : SettingsClass) (src : EnvFile)
    (kwENV : Option Environment) : BaseAppSettings :=
  { DEBUG := src.DEBUG.getD (classDefaults cls).1
    HOST := src.HOST.getD "127.0.0.1"
    PORT := src.PORT.getD 8000
    API_PREFIX := src.API_PREFIX.getD "/api"
    CORS_ALLOW_ALL_ORIGINS :=
      src.CORS_ALLOW_ALL_ORIGINS.getD (classDefaults cls).2
    PROJECT_NAME := src.PROJECT_NAME.getD "HamkeeFastAPI"
    PROJECT_VERSION := src.PROJECT_VERSION.getD "2025.01"
    ENVIRONMENT :=
      match kwENV with
      | some e => e
      | none => src.ENVIRONMENT.getD .development }

/-- `SettingsFactory._env_settings_map` together with the
`.get(…, DevelopmentSettings)` lookup in `create`. -/
def env_settings_map : Environment → SettingsClass
  | .development => .development
  | .testing => .testing
  | .staging => .staging
  | .production => .production

/-- Python truthiness of the `env_file` argument: `None` and `""` are falsy,
so neither puts `_env_file` into `base_kwargs` and pydantic falls back to the
default `.env` path (modelled as `none`). -/
def pyStrOpt (s : Option String) : Option String :=
  match s with
  | some p => if p = "" then none else some p
  | none => none

/-- The body of `SettingsFactory.create` (without the `lru_cache` layer):
resolve the env source, build `BaseAppSettings(**base_kwargs)` to learn the
effective environment, look up the environment-specific class, and
instantiate it with the same kwargs.  `readFile` maps an env-file path
(`none` = the default `.env`) to that source's bindings. -/
def SettingsFactory.create_value (readFile : Option String → EnvFile)
    (env_file : Option String) (environment : Option Environment) :
    SettingsClass × BaseAppSettings :=
  let src := readFile (pyStrOpt env_file)
  let base_settings := instantiate .base src environment
  let cls := env_settings_map base_settings.ENVIRONMENT
  (cls, instantiate cls src environment)

/-- A settings instance as held by the `lru_cache`: identity (`id`) tells
distinct constructions apart even when their field values coincide. -/
structure SettingsInstance where
  id : Nat
  cls : SettingsClass
  value : BaseAppSettings
  deriving DecidableEq, Repr

/-- The `lru_cache` key: the `(env_file, environment)` argument pair. -/
abbrev CacheKey := Option String × Option Environment

/-- The factory's cache plus an allocator for fresh instance identities. -/
structure FactoryState where
  cache : List (CacheKey × SettingsInstance)
  nextId : Nat
  deriving DecidableEq, Repr

/-- Cache lookup by key. -/
def cacheLookup (key : CacheKey) :
    List (CacheKey × SettingsInstance) → Option SettingsInstance
  | [] => none
  | (k, v) :: rest => if k = key then some v else cacheLookup key rest

/-- `SettingsFactory.create` with its `@lru_cache`: on a key hit, return the
cached instance untouched; on a miss, construct (reading the environment),
cache and return a fresh instance. -/
def SettingsFactory.create (readFile : Option String → EnvFile)
    (st : FactoryState) (env_file : Option String)
    (environment : Option Environment) : SettingsInstance × FactoryState :=
  let key : CacheKey := (env_file, environment)
  match cacheLookup key st.cache with
  | some inst => (inst, st)
  | none =>
    let cv := SettingsFactory.create_value readFile env_file environment
    let inst : SettingsInstance := ⟨st.nextId, cv.1, cv.2⟩
    (inst, ⟨(key, inst) :: st.cache, st.nextId + 1⟩)

/-- `get_settings`: a convenience delegation to `SettingsFactory.create`. -/
def get_settings (readFile : Option String → EnvFile) (st : FactoryState)
    (env_file : Option String) (environment : Option Environment) :
    SettingsInstance × FactoryState :=
  SettingsFactory.create readFile st env_file environment

/-! ## Application bootstrap (`app/main.py`) -/

/-- A middleware registration; the bootstrap only ever adds `CORSMiddleware`
with its four arguments. -/
inductive Middleware where
  | cors (allow_origins : List String) (allow_credentials : Bool)
      (allow_methods : List String) (allow_headers : List String)
  deriving DecidableEq, Repr

/-- The observable configuration of the constructed FastAPI application:
constructor arguments, router mount prefixes, middleware registrations. -/
structure FastAPIApp where
  debug : Bool
  title : String
  version : String
  router_prefixes : List String
  middlewares : List Middleware
  deriving DecidableEq, Repr

/-- `get_application`: build the app from settings and mount the single api
router under `settings.API_PREFIX`. -/
def get_application (settings : BaseAppSettings) : FastAPIApp :=
  { debug := settings.DEBUG
    title := settings.PROJECT_NAME
    version := settings.PROJECT_VERSION
    router_prefixes := [settings.API_PREFIX]
    middlewares := [] }

/-- The module-level bootstrap: build the app, then attach the wildcard CORS
middleware and log exactly when `CORS_ALLOW_ALL_ORIGINS` is set, logging the
other branch otherwise.  Returns the app and the info log lines. -/
def bootstrap (settings : BaseAppSettings) : FastAPIApp × List String :=
  let app := get_application settings
  if settings.CORS_ALLOW_ALL_ORIGINS then
    ({ app with
        middlewares := app.middlewares ++ [.cors ["*"] true ["*"] ["*"]] },
      ["CORS allowed for all origins."])
  else
    (app, ["CORS not allowed for all origins."])

end Hamkee

open Hamkee

/-- C1: when every one of the `max_retries` attempts raises a retryable
exception, `_send_request` makes exactly `max_retries` underlying calls and
returns `Err` with message
`"Failed to {METHOD} {url} after {max_retries} attempts: {e}"`, where `{e}`
is `str` of the exception raised on the final attempt. -/
theorem C1_retryable_exhaustion_message (cfg : HTTPClientConfig)
    (oracle : Nat → AttemptOutcome) (method url : String) (e : Exc)
    (hpos : 0 < cfg.max_retries)
    (hall : ∀ i, i < cfg.max_retries →
      ∃ e', oracle i = .failure e' ∧ e'.excType ∈ cfg.retryable_exceptions)
    (hlast : oracle (cfg.max_retries - 1) = .failure e) :
    send_request cfg oracle method url =
      (.returned (.err (errorMessage method url cfg.max_retries e.msg)),
        cfg.max_retries) := by
  obtain ⟨e', he', heq⟩ := retryLoop_allFail cfg oracle method url
    cfg.max_retries 0 "" (by omega) hpos (fun i _ h2 => hall i h2)
  rw [hlast] at he'
  cases he'
  exact heq

/-- Witness for C1: `max_retries = 3`, every attempt raises a connect
timeout; three calls are made and the message names GET, the URL, the three
attempts and the last error text. -/
theorem C1_witness :
    send_request { max_retries := 3 }
        (fun _ => .failure ⟨"ConnectTimeout", "connect timed out"⟩)
        "get" "https://example.com" =
      (.returned (.err (errorMessage "get" "https://example.com" 3
        "connect timed out")), 3) :=
  C1_retryable_exhaustion_message { max_retries := 3 }
    (fun _ => .failure ⟨"ConnectTimeout", "connect timed out"⟩)
    "get" "https://example.com" ⟨"ConnectTimeout", "connect timed out"⟩
    (by decide) (fun i _ => ⟨⟨"ConnectTimeout", "connect timed out"⟩, rfl, by decide⟩)
    rfl

/-- C2: when the attempts before index `j` (so the first `k − 1 = j`
attempts) raise retryable exceptions and attempt `j` (the `k`-th) succeeds,
`_send_request` makes exactly `j + 1 = k` underlying calls and returns `Ok`
wrapping that attempt's response, short-circuiting the rest; with `j = 0`
a successful first attempt makes exactly one call. -/
theorem C2_success_short_circuit (cfg : HTTPClientConfig)
    (oracle : Nat → AttemptOutcome) (method url : String) (j : Nat)
    (resp : Response)
    (hj : j < cfg.max_retries)
    (hfail : ∀ i, i < j →
      ∃ e, oracle i = .failure e ∧ e.excType ∈ cfg.retryable_exceptions)
    (hsucc : oracle j = .success resp) :
    send_request cfg oracle method url = (.returned (.ok resp), j + 1) :=
  retryLoop_success cfg oracle method url j resp hsucc hfail
    cfg.max_retries 0 "" (by omega) (Nat.zero_le j) hj

/-- Witness for C2: `max_retries = 3`, a connect timeout, then a read
timeout, then success; exactly 3 calls and an `Ok` result. -/
theorem C2_witness :
    send_request { max_retries := 3 }
        (fun i => if i = 0 then .failure ⟨"ConnectTimeout", "t1"⟩
          else if i = 1 then .failure ⟨"ReadTimeout", "t2"⟩
          else .success 7)
        "get" "https://example.com" =
      (.returned (.ok 7), 3) :=
  C2_success_short_circuit { max_retries := 3 }
    (fun i => if i = 0 then .failure ⟨"ConnectTimeout", "t1"⟩
      else if i = 1 then .failure ⟨"ReadTimeout", "t2"⟩
      else .success 7)
    "get" "https://example.com" 2 7 (by decide)
    (by
      intro i hi
      interval_cases i
      · exact ⟨⟨"ConnectTimeout", "t1"⟩, rfl, by decide⟩
      · exact ⟨⟨"ReadTimeout", "t2"⟩, rfl, by decide⟩)
    rfl

/-- C3: if the attempts before index `j` raise retryable exceptions and
attempt `j` raises an exception not in `retryable_exceptions`, that exception
propagates to the caller unmodified and immediately: exactly `j + 1` calls
are made and no `Result` (neither `Ok` nor `Err`) is returned. -/
theorem C3_non_retryable_propagates (cfg : HTTPClientConfig)
    (oracle : Nat → AttemptOutcome) (method url : String) (j : Nat) (e : Exc)
    (hj : j < cfg.max_retries)
    (hfail : ∀ i, i < j →
      ∃ e', oracle i = .failure e' ∧ e'.excType ∈ cfg.retryable_exceptions)
    (hraise : oracle j = .failure e)
    (hnr : e.excType ∉ cfg.retryable_exceptions) :
    send_request cfg oracle method url = (.raised e, j + 1) :=
  retryLoop_raise cfg oracle method url j e hraise hnr hfail
    cfg.max_retries 0 "" (by omega) (Nat.zero_le j) hj

/-- Witness for C3: the first attempt raises an `HTTPStatusError`, which is
not retryable with the default configuration; it propagates after exactly
one call. -/
theorem C3_witness :
    send_request {} (fun _ => .failure ⟨"HTTPStatusError", "404"⟩)
        "get" "https://example.com" =
      (.raised ⟨"HTTPStatusError", "404"⟩, 1) :=
  C3_non_retryable_propagates {}
    (fun _ => .failure ⟨"HTTPStatusError", "404"⟩)
    "get" "https://example.com" 0 ⟨"HTTPStatusError", "404"⟩
    (by decide) (fun i hi => absurd hi (Nat.not_lt_zero i)) rfl (by decide)

/-- C9: with `max_retries = 0` (the constructor enforces no positivity) the
loop body never runs: zero underlying calls, nothing raises, and the result
is `Err` with message `"Failed to {METHOD} {url} after 0 attempts: "` whose
last-error text is empty. -/
theorem C9_zero_retries_exhaustion (cfg : HTTPClientConfig)
    (oracle : Nat → AttemptOutcome) (method url : String)
    (h0 : cfg.max_retries = 0) :
    send_request cfg oracle method url =
      (.returned (.err (errorMessage method url 0 "")), 0) := by
  simp [send_request, retryLoop, h0]

/-- Witness for C9: a config with `max_retries = 0` accepted as-is; the call
returns the exhaustion `Err` with empty error text after zero calls. -/
theorem C9_witness :
    send_request { max_retries := 0 }
        (fun _ => .failure ⟨"ConnectTimeout", "never seen"⟩)
        "get" "https://example.com" =
      (.returned (.err (errorMessage "get" "https://example.com" 0 "")), 0) :=
  C9_zero_retries_exhaustion { max_retries := 0 }
    (fun _ => .failure ⟨"ConnectTimeout", "never seen"⟩)
    "get" "https://example.com" rfl

/-- C4: a settings object constructed by `SettingsFactory.create` (a cache
miss, so construction really runs) whose effective environment is
`production` — passed explicitly or read from the environment file — has
`DEBUG = false` and `CORS_ALLOW_ALL_ORIGINS = false`, whatever the other
classes' defaults are, as long as the env source itself binds neither
`DEBUG` nor `CORS_ALLOW_ALL_ORIGINS`. -/
theorem C4_production_disables_debug_and_cors
    (readFile : Option String → EnvFile) (st : FactoryState)
    (env_file : Option String) (environment : Option Environment)
    (hmiss : cacheLookup (env_file, environment) st.cache = none)
    (hdbg : (readFile (pyStrOpt env_file)).DEBUG = none)
    (hcors : (readFile (pyStrOpt env_file)).CORS_ALLOW_ALL_ORIGINS = none)
    (henv : environment = some .production ∨
      (environment = none ∧
        (readFile (pyStrOpt env_file)).ENVIRONMENT = some .production)) :
    (SettingsFactory.create readFile st env_file environment).1.value.DEBUG
        = false ∧
    (SettingsFactory.create readFile st env_file
        environment).1.value.CORS_ALLOW_ALL_ORIGINS = false := by
  rcases henv with h | ⟨h1, h2⟩
  · subst h
    simp [SettingsFactory.create, hmiss, SettingsFactory.create_value,
      instantiate, env_settings_map, classDefaults, hdbg, hcors]
  · subst h1
    simp [SettingsFactory.create, hmiss, SettingsFactory.create_value,
      instantiate, env_settings_map, classDefaults, hdbg, hcors, h2]

/-- Witness for C4: an env file whose only binding is
`ENVIRONMENT=production`, a fresh cache; the produced settings have debug and
wildcard CORS off. -/
theorem C4_witness :
    (SettingsFactory.create
        (fun _ => { EnvFile.empty with ENVIRONMENT := some .production })
        ⟨[], 0⟩ none none).1.value.DEBUG = false ∧
    (SettingsFactory.create
        (fun _ => { EnvFile.empty with ENVIRONMENT := some .production })
        ⟨[], 0⟩ none none).1.value.CORS_ALLOW_ALL_ORIGINS = false :=
  C4_production_disables_debug_and_cors
    (fun _ => { EnvFile.empty with ENVIRONMENT := some .production })
    ⟨[], 0⟩ none none rfl rfl rfl (Or.inr ⟨rfl, rfl⟩)

/-- C5: `get_settings` is exactly `SettingsFactory.create`, and a second call
to `SettingsFactory.create` with the identical `(env_file, environment)`
argument pair returns the very same cached instance as the first and leaves
the factory state untouched — whatever reading the environment would now
yield (so the environment is not re-read and construction happens at most
once per distinct argument pair). -/
theorem C5_identical_args_return_cached_instance
    (readFile : Option String → EnvFile) (st : FactoryState)
    (env_file : Option String) (environment : Option Environment) :
    get_settings readFile st env_file environment =
      SettingsFactory.create readFile st env_file environment ∧
    ∀ readFile2 : Option String → EnvFile,
      SettingsFactory.create readFile2
          (SettingsFactory.create readFile st env_file environment).2
          env_file environment =
        ((SettingsFactory.create readFile st env_file environment).1,
          (SettingsFactory.create readFile st env_file environment).2) := by
  refine ⟨rfl, fun readFile2 => ?_⟩
  cases h : cacheLookup (env_file, environment) st.cache with
  | some inst => simp [SettingsFactory.create, h]
  | none => simp [SettingsFactory.create, h, cacheLookup]

/-- C6: after `close()` the internal pooled-client reference is `None`; a
subsequent `get_client` lazily creates a brand-new pool instance (the next
fresh identity) and installs it, and a subsequent request method uses that
newly created pool and behaves exactly as `_send_request` always does — the
client remains fully usable. -/
theorem C6_close_releases_and_lazily_recreates (cfg : HTTPClientConfig)
    (st : HTTPClientState) (oracle : Nat → AttemptOutcome)
    (method url : String) :
    (HTTPClient.close st).client = none ∧
    (HTTPClient.get_client (HTTPClient.close st)).1 =
      (HTTPClient.close st).nextPool ∧
    (HTTPClient.get_client (HTTPClient.close st)).2.client =
      some ((HTTPClient.get_client (HTTPClient.close st)).1) ∧
    (HTTPClient.send_request_pooled cfg (HTTPClient.close st) oracle method
        url).2.1 = (HTTPClient.get_client (HTTPClient.close st)).1 ∧
    (HTTPClient.send_request_pooled cfg (HTTPClient.close st) oracle method
        url).1 = send_request cfg oracle method url := by
  cases hc : st.client <;>
    simp [HTTPClient.close, HTTPClient.get_client,
      HTTPClient.send_request_pooled, hc]

/-- C7: the effective environment of a `SettingsFactory.create` construction
is the explicit `environment` argument when given, else the env-file value,
else `development`; the class instantiated is the one `_env_settings_map`
associates to that effective environment, and the map sends
development/testing/staging/production to the matching settings class. -/
theorem C7_environment_precedence_and_class_selection
    (readFile : Option String → EnvFile) (env_file : Option String)
    (environment : Option Environment) :
    (SettingsFactory.create_value readFile env_file environment).2.ENVIRONMENT
        = environment.getD
          ((readFile (pyStrOpt env_file)).ENVIRONMENT.getD .development) ∧
    (SettingsFactory.create_value readFile env_file environment).1 =
      env_settings_map (environment.getD
        ((readFile (pyStrOpt env_file)).ENVIRONMENT.getD .development)) ∧
    env_settings_map .development = .development ∧
    env_settings_map .testing = .testing ∧
    env_settings_map .staging = .staging ∧
    env_settings_map .production = .production := by
  cases environment <;>
    simp [SettingsFactory.create_value, instantiate, env_settings_map]

/-- C8: the bootstrap builds the application with the settings' debug flag,
project name as title and project version, mounts the router under the
settings' API prefix, attaches the wildcard CORS middleware (all origins,
methods, headers, credentials allowed) exactly when
`CORS_ALLOW_ALL_ORIGINS` is true, and logs which branch was taken. -/
theorem C8_bootstrap_app_and_cors_branch (settings : BaseAppSettings) :
    (bootstrap settings).1.debug = settings.DEBUG ∧
    (bootstrap settings).1.title = settings.PROJECT_NAME ∧
    (bootstrap settings).1.version = settings.PROJECT_VERSION ∧
    (bootstrap settings).1.router_prefixes = [settings.API_PREFIX] ∧
    (Middleware.cors ["*"] true ["*"] ["*"] ∈ (bootstrap settings).1.middlewares
      ↔ settings.CORS_ALLOW_ALL_ORIGINS = true) ∧
    (bootstrap settings).2 =
      [if settings.CORS_ALLOW_ALL_ORIGINS then "CORS allowed for all origins."
        else "CORS not allowed for all origins."] := by
  cases h : settings.CORS_ALLOW_ALL_ORIGINS <;>
    simp [bootstrap, get_application, h]

/-- C10: every verb method (get/post/put/delete) called with an explicit
timeout of `0` issues the request with `config.default_timeout` instead of
`0` — the `timeout or default` fallback fires for every falsy value, `0` as
well as `None`. -/
theorem C10_zero_timeout_falls_back_to_default (cfg : HTTPClientConfig)
    (url : String) (headers : Option Headers) (data : Option FormData)
    (json : Option JsonData) :
    (HTTPClient.get cfg url headers (some 0)).timeout = cfg.default_timeout ∧
    (HTTPClient.post cfg url data json headers (some 0)).timeout =
      cfg.default_timeout ∧
    (HTTPClient.put cfg url data json headers (some 0)).timeout =
      cfg.default_timeout ∧
    (HTTPClient.delete cfg url headers (some 0)).timeout =
      cfg.default_timeout ∧
    (HTTPClient.get cfg url headers none).timeout = cfg.default_timeout ∧
    (HTTPClient.post cfg url data json headers none).timeout =
      cfg.default_timeout ∧
    (HTTPClient.put cfg url data json headers none).timeout =
      cfg.default_timeout ∧
    (HTTPClient.delete cfg url headers none).timeout = cfg.default_timeout := by
  simp [HTTPClient.get, HTTPClient.post, HTTPClient.put, HTTPClient.delete,
    pyIntOr]
